import Mathlib

/-!
Verification of the audio-to-spectrogram data pipeline and label-encoding /
dataset-indexing logic of the SPbAU speech-command notebook
(`src/task04/task04.ipynb`).

The notebook's core is shallowly embedded below:
* strings are Lean `String`s (or `List Char` where the code manipulates the
  text character-wise);
* numpy integer sample arrays are `List Int`;
* numpy float one-hot rows are `List Nat` of 0/1 entries (the float cast does
  not change the 0/1 pattern the claims are about);
* Python exceptions (`ValueError` from tuple unpacking, `IndexError` from
  list indexing) are `Option.none`;
* the single `np.random.randint` draw of `RandomChop._chop_audio` is passed
  in explicitly as a `start` argument, constrained by the hypothesis that it
  lies in the half-open range `randint` draws from.
-/

namespace Speech

/-- `legal_labels` from the notebook: the space-separated word list
`yes no up down left right on off stop go silence unknown`, split into the
12 vocabulary entries. -/
def legal_labels : List String :=
  ["yes", "no", "up", "down", "left", "right", "on", "off", "stop", "go",
   "silence", "unknown"]

/-- The per-label body of the loop in `SoundDataset._transform_labels`:
a label equal to `_background_noise_` becomes `silence`; else a label not in
`legal_labels` becomes `unknown`; else the label is kept.  Note the
membership test is against the full `legal_labels`, which contains
`silence` and `unknown` themselves. -/
def canonicalLabel (label : String) : String :=
  if label = "_background_noise_" then "silence"
  else if label ∉ legal_labels then "unknown"
  else label

/-- Code-point lexicographic comparison on character lists — the comparison
Python uses when pandas sorts string column labels. -/
def lexLe : List Char → List Char → Bool
  | [], _ => true
  | _ :: _, [] => false
  | a :: as, b :: bs =>
    if a.toNat < b.toNat then true
    else if b.toNat < a.toNat then false
    else lexLe as bs

/-- String comparison used by `pd.get_dummies` when it sorts its columns. -/
def strLe (a b : String) : Bool := lexLe a.data b.data

/-- Insert into a sorted list (helper of the sort `pd.get_dummies` applies to
the distinct values of the series). -/
def insertSorted (x : String) : List String → List String
  | [] => [x]
  | y :: ys => if strLe x y then x :: y :: ys else y :: insertSorted x ys

/-- Insertion sort by `strLe`. -/
def sortStrings : List String → List String
  | [] => []
  | x :: xs => insertSorted x (sortStrings xs)

/-- Column order of `pd.get_dummies(pd.Series(nlabels))`: the distinct values
that occur in the series, sorted lexicographically.  pandas derives the
columns from the data, not from any external vocabulary. -/
def dummyColumns (nlabels : List String) : List String :=
  sortStrings nlabels.dedup

/-- One row of the `pd.get_dummies` result: indicator of `x` against the
column list (float32 in the code; the 0/1 pattern is what matters here). -/
def oneHot (cols : List String) (x : String) : List Nat :=
  cols.map (fun c => if c = x then 1 else 0)

/-- `SoundDataset._transform_labels`: canonicalise every raw folder name,
then `np.array(pd.get_dummies(pd.Series(nlabels)), dtype=np.float32)` —
one indicator row per entry over the data-derived sorted column list. -/
def transform_labels (labels : List String) : List (List Nat) :=
  let nlabels := labels.map canonicalLabel
  nlabels.map (oneHot (dummyColumns nlabels))

/-- Modelled from the spec's words, for comparison with `transform_labels`:
"convert every canonical class name ... to a one-hot LabelVector over
LabelVocabulary, where the column order is fixed at the vocabulary's
declared order". -/
def transformLabelsSpec (labels : List String) : List (List Nat) :=
  labels.map (fun l => oneHot legal_labels (canonicalLabel l))

/-! ### RandomChop (Stage A) -/

/-- `RandomChop._pad_audio`: if the audio is already at least `length`
samples it is returned unchanged, otherwise
`np.pad(samples, pad_width=(length - len(samples), 0), mode=constant)`
prepends zeros so the total length becomes exactly `length`. -/
def pad_audio (length : Nat) (samples : List Int) : List Int :=
  if samples.length ≥ length then samples
  else List.replicate (length - samples.length) 0 ++ samples

/-- `RandomChop._chop_audio` with the `np.random.randint(0, len - length)`
draw passed in as `start`: the Python slice `samples[start : start + length]`. -/
def chop_audio (length start : Nat) (samples : List Int) : List Int :=
  (samples.drop start).take length

/-- `RandomChop.__call__` on the samples field: pad, then chop iff the padded
audio is strictly longer than the target. -/
def randomChop (length start : Nat) (samples : List Int) : List Int :=
  let padded := pad_audio length samples
  if padded.length > length then chop_audio length start padded else padded

/-! ### Specgram (Stage B) -/

/-- The length argument `Specgram.__call__` passes to `signal.resample`:
`int(self.sample_rate / sample_rate * samples.shape[0])`.  `int` truncates
toward zero, which on these nonnegative values is the floor; the float
product is modelled by exact arithmetic (`target * n / orig` in `Nat`),
which agrees with the float computation whenever the latter is exact. -/
def resampleLen (target orig n : Nat) : Nat :=
  target * n / orig

/-- Modelled from the spec's words, for comparison with `resampleLen`:
"output length = `round(target_rate / original_rate * input_length)`". -/
def resampleLenSpec (target orig n : Nat) : Int :=
  round ((target * n : ℚ) / (orig : ℚ))

/-- `int(round(window_size * sample_rate / 1e3))` inside
`Specgram._log_specgram`, used for both `nperseg` (window 20 ms) and
`noverlap` (step 10 ms).  For the parameter values in use
(`ms * rate` divisible by 1000, e.g. 20·8000 and 10·8000) the division is
exact, so the floor below equals the Python round. -/
def msToSamples (ms rate : Nat) : Nat :=
  ms * rate / 1000

/-- Output dimensions `(time_bins, freq_bins)` of
`scipy.signal.spectrogram(audio, fs, window=hann, nperseg, noverlap,
detrend=False)` on a length-`n` input, after the transpose in
`_log_specgram`: with its default `boundary=None`/`padded=False` scipy cuts
`(n - noverlap) // (nperseg - noverlap)` segments (valid for
`n ≥ nperseg`), and the one-sided spectrum of a real signal has
`nperseg // 2 + 1` frequency rows. -/
def specShape (rate n : Nat) : Nat × Nat :=
  let nperseg := msToSamples 20 rate
  let noverlap := msToSamples 10 rate
  ((n - noverlap) / (nperseg - noverlap), nperseg / 2 + 1)

/-- The `(time_bins, freq_bins)` of the spectrogram the transform chain
`RandomChop(16000) ∘ Specgram(8000)` produces for audio of original sample
rate `origRate`: Stage A emits `(randomChop 16000 start samples)`, Stage B
resamples it to `resampleLen 8000 origRate <length>` samples and takes the
spectrogram at 8000 Hz. -/
def pipelineShape (origRate : Nat) (start : Nat) (samples : List Int) : Nat × Nat :=
  specShape 8000 (resampleLen 8000 origRate (randomChop 16000 start samples).length)

/-! ### Corpus indexing (`unzip2`, `SoundDataset`) -/

/-- `unzip2`: `a, b = zip(*values); return list(a), list(b)`.  On an empty
`values`, `zip(*[])` yields nothing and the two-target unpacking raises
`ValueError` — modelled as `none`. -/
def unzip2 {α β : Type} (values : List (α × β)) : Option (List α × List β) :=
  match values with
  | [] => none
  | _ :: _ => some (values.map Prod.fst, values.map Prod.snd)

/-- `SoundDataset._is_needed`: membership in the subset when one was loaded,
otherwise always `true`.  The subset is modelled as the list of its
elements. -/
def is_needed (subset : Option (List String)) (name : String) : Bool :=
  match subset with
  | some s => name ∈ s
  | none => true

/-- `SoundDataset._list_of_wavs`: the glob listing is modelled as the list
`files` of `(label, filename) = path.parts[-2:]` pairs; entries whose
filename (`path.parts[-1]`) fails `_is_needed` are dropped, and the
survivors are unzipped into the aligned label and filename lists. -/
def list_of_wavs (subset : Option (List String)) (files : List (String × String)) :
    Option (List String × List String) :=
  unzip2 (files.filter (fun p => is_needed subset p.2))

/-- The state `SoundDataset.__init__` builds from a directory listing:
`_labels`, `_sounds` and `_transformed_labels`.  Construction fails
(`none`) when `unzip2` raises on an empty filtered listing. -/
def soundDatasetInit (subset : Option (List String))
    (files : List (String × String)) :
    Option (List String × List String × List (List Nat)) :=
  match list_of_wavs subset files with
  | none => none
  | some (labels, sounds) => some (labels, sounds, transform_labels labels)

/-- `SoundDataset.__len__`: `len(self._labels)`. -/
def soundDatasetLen (d : List String × List String × List (List Nat)) : Nat :=
  d.1.length

/-- Python list subscription `l[idx]` with an `int` index: nonnegative
indices are positions from the front, negative indices in `[-len, -1]`
resolve from the end, anything else raises `IndexError` (`none`). -/
def pyGet {α : Type} (l : List α) (idx : Int) : Option α :=
  if idx ≥ 0 then l.get? idx.toNat
  else if -idx ≤ (l.length : Int) then l.get? (l.length - (-idx).toNat)
  else none

/-- `SoundDataset.__getitem__` up to the file read and transform chain: the
three subscriptions `self._labels[idx]`, `self._sounds[idx]`,
`self._transformed_labels[idx]`, any of which raises `IndexError` on an
out-of-range index.  The wav read and `self.transform` consume the result
and do not affect which indices succeed. -/
def soundDatasetGetitem (d : List String × List String × List (List Nat))
    (idx : Int) : Option (String × String × List Nat) :=
  match pyGet d.1 idx, pyGet d.2.1 idx, pyGet d.2.2 idx with
  | some label, some sound, some tlabel => some (label, sound, tlabel)
  | _, _, _ => none

/-! ### Subset loading (`SoundDataset._load_subset`) -/

/-- Python `str.split(sep)` for a one-character separator, on the character
list of the string: `''.split(c) = ['']`, a trailing separator yields a
trailing empty segment. -/
def splitChar (c : Char) : List Char → List (List Char)
  | [] => [[]]
  | x :: xs =>
    if x = c then [] :: splitChar c xs
    else
      match splitChar c xs with
      | [] => [[x]]
      | y :: ys => (x :: y) :: ys

/-- `SoundDataset._load_subset` on the text of the subset file:
`set(path.split('/')[1] for path in text.split('\n'))`.  Each line is split
on `'/'` and subscripted at 1; a line with no `'/'` makes that subscription
raise `IndexError` (`none` overall).  The resulting Python `set` is modelled
as the deduplicated list of the extracted segments. -/
def load_subset (text : List Char) : Option (List (List Char)) :=
  let keys := (splitChar (Char.ofNat 10) text).map
    (fun line => (splitChar (Char.ofNat 47) line).get? 1)
  if keys.all Option.isSome then some (keys.filterMap id).dedup else none

end Speech

namespace Speech

example : canonicalLabel "yes" = "yes" := by decide
example : canonicalLabel "_background_noise_" = "silence" := by decide
example : canonicalLabel "banana" = "unknown" := by decide
example : canonicalLabel "silence" = "silence" := by decide
example : dummyColumns ["yes", "silence", "unknown", "yes"] =
    ["silence", "unknown", "yes"] := by decide
example : transform_labels ["yes", "yes", "yes", "_background_noise_", "banana"] =
    [[0, 0, 1], [0, 0, 1], [0, 0, 1], [1, 0, 0], [0, 1, 0]] := by decide

example : randomChop 6 0 [1, 2, 3] = [0, 0, 0, 1, 2, 3] := by decide
example : randomChop 3 1 [1, 2, 3, 4, 5] = [2, 3, 4] := by decide
example : randomChop 3 0 [1, 2, 3] = [1, 2, 3] := by decide
example : resampleLen 8000 16000 16000 = 8000 := by decide
example : resampleLen 8000 16000 3 = 1 := by decide
example : resampleLenSpec 8000 16000 3 = 2 := by
  simp [resampleLenSpec]
  norm_num [round_eq]
example : msToSamples 20 8000 = 160 := by decide
example : specShape 8000 8000 = (99, 81) := by decide
example : specShape 8000 16000 = (199, 81) := by decide
example : unzip2 ([] : List (Nat × Nat)) = none := by decide
example : pyGet ["a", "b"] (-1) = some "b" := by decide
example : pyGet ["a", "b"] 2 = none := by decide
example : pyGet ["a", "b"] (-3) = none := by decide
example : load_subset ("yes/a.wav".data) = some ["a.wav".data] := by decide
example : load_subset ("yes/a.wav\n".data) = none := by decide
example : load_subset ("".data) = none := by decide

/-! ## Helper lemmas: the sorted column list of `pd.get_dummies` -/

theorem insertSorted_perm (x : String) : ∀ l : List String,
    (insertSorted x l).Perm (x :: l)
  | [] => List.Perm.refl _
  | y :: ys => by
    unfold insertSorted
    by_cases h : strLe x y
    · rw [if_pos h]
    · rw [if_neg h]
      exact ((insertSorted_perm x ys).cons y).trans (List.Perm.swap x y ys)

theorem sortStrings_perm : ∀ l : List String, (sortStrings l).Perm l
  | [] => List.Perm.refl _
  | x :: xs =>
    (insertSorted_perm x (sortStrings xs)).trans ((sortStrings_perm xs).cons x)

theorem mem_dummyColumns {x : String} {l : List String} :
    x ∈ dummyColumns l ↔ x ∈ l := by
  unfold dummyColumns
  rw [(sortStrings_perm l.dedup).mem_iff, List.mem_dedup]

theorem nodup_dummyColumns (l : List String) : (dummyColumns l).Nodup :=
  ((sortStrings_perm l.dedup).nodup_iff).mpr (List.nodup_dedup l)

theorem length_dummyColumns (l : List String) :
    (dummyColumns l).length = l.dedup.length :=
  (sortStrings_perm l.dedup).length_eq

/-! ## Helper lemmas: one-hot rows -/

theorem count_one_oneHot (cols : List String) (x : String) :
    (oneHot cols x).count 1 = cols.count x := by
  induction cols with
  | nil => rfl
  | cons c cs ih =>
    unfold oneHot at ih ⊢
    rw [List.map_cons, List.count_cons, List.count_cons, ih]
    by_cases h : c = x
    · simp [h]
    · simp [h, fun hh : x = c => h hh.symm]

theorem sum_oneHot (cols : List String) (x : String) :
    (oneHot cols x).sum = cols.count x := by
  induction cols with
  | nil => rfl
  | cons c cs ih =>
    unfold oneHot at ih ⊢
    rw [List.map_cons, List.sum_cons, List.count_cons, ih]
    by_cases h : c = x
    · simp [h, Nat.add_comm]
    · simp [h, fun hh : x = c => h hh.symm]

theorem mem_oneHot (cols : List String) (x : String) :
    ∀ y ∈ oneHot cols x, y = 0 ∨ y = 1 := by
  intro y hy
  simp only [oneHot, List.mem_map] at hy
  obtain ⟨c, _, rfl⟩ := hy
  by_cases h : c = x <;> simp [h]

theorem oneHot_length (cols : List String) (x : String) :
    (oneHot cols x).length = cols.length := by
  simp [oneHot]

theorem get?_oneHot_indexOf (cols : List String) (x : String) (h : x ∈ cols) :
    (oneHot cols x).get? (cols.indexOf x) = some 1 := by
  unfold oneHot
  rw [List.get?_map, List.indexOf_get? h]
  simp

/-! ## Helper lemmas: `transform_labels` -/

theorem transform_labels_length (labels : List String) :
    (transform_labels labels).length = labels.length := by
  simp [transform_labels]

theorem transform_labels_get? (labels : List String) (i : Nat)
    (h : i < labels.length) :
    (transform_labels labels).get? i =
      some (oneHot (dummyColumns (labels.map canonicalLabel))
        (canonicalLabel (labels.get ⟨i, h⟩))) := by
  simp only [transform_labels]
  rw [List.get?_map, List.get?_map, List.get?_eq_get h]
  rfl

/-! ## Claim C1 -/

/-- C1 (counterexample): on the corpus of end-to-end scenario 1 the encoder
does *not* produce vectors of length `|LabelVocabulary| = 12` indexed by the
declared vocabulary order — `pd.get_dummies` derives the columns from the
data, so the rows have length 3 (the distinct canonical classes present) and
differ from the vocabulary-indexed encoding the spec describes. -/
theorem transform_labels_not_vocab_indexed_cex :
    ((transform_labels
        ["yes", "yes", "yes", "_background_noise_", "banana"]).headI).length = 3 ∧
    ((transformLabelsSpec
        ["yes", "yes", "yes", "_background_noise_", "banana"]).headI).length = 12 ∧
    transform_labels ["yes", "yes", "yes", "_background_noise_", "banana"] ≠
      transformLabelsSpec ["yes", "yes", "yes", "_background_noise_", "banana"] := by
  decide

/-- C1 (amended): the Label Encoder produces one row per corpus entry, but
the one-hot columns are derived from the data: row `i` has length equal to
the number of distinct canonical classes present in the corpus (not
`|LabelVocabulary|`), and its `1` sits at the index of entry `i`'s canonical
class in the lexicographically sorted list of present classes — so the
position of a class is its rank among the classes of that particular corpus
and can differ between Dataset Views whose present-class sets differ. -/
theorem transform_labels_data_derived_columns (labels : List String) (i : Nat)
    (h : i < labels.length) :
    (transform_labels labels).length = labels.length ∧
    ∃ v, (transform_labels labels).get? i = some v ∧
      v.length = (labels.map canonicalLabel).dedup.length ∧
      v.get? ((dummyColumns (labels.map canonicalLabel)).indexOf
        (canonicalLabel (labels.get ⟨i, h⟩))) = some 1 := by
  refine ⟨transform_labels_length labels,
    oneHot (dummyColumns (labels.map canonicalLabel))
      (canonicalLabel (labels.get ⟨i, h⟩)),
    transform_labels_get? labels i h, ?_, ?_⟩
  · rw [oneHot_length, length_dummyColumns]
  · refine get?_oneHot_indexOf _ _ ?_
    rw [mem_dummyColumns]
    exact List.mem_map_of_mem canonicalLabel (labels.get_mem i h)

/-- Witness for C1 (amended) at the two-entry corpus `yes, banana`. -/
theorem transform_labels_data_derived_columns_witness :
    (transform_labels ["yes", "banana"]).length =
      (["yes", "banana"] : List String).length ∧
    ∃ v, (transform_labels ["yes", "banana"]).get? 0 = some v ∧
      v.length = ((["yes", "banana"] : List String).map canonicalLabel).dedup.length ∧
      v.get? ((dummyColumns ((["yes", "banana"] : List String).map canonicalLabel)).indexOf
        (canonicalLabel ((["yes", "banana"] : List String).get ⟨0, by decide⟩))) =
        some 1 :=
  transform_labels_data_derived_columns ["yes", "banana"] 0 (by decide)

/-! ## Claim C2 -/

/-- C2 (counterexample): a real folder literally named `silence` (or
`unknown`) does *not* get canonical class `unknown`: the membership test of
`_transform_labels` is against the full `legal_labels`, which contains
`silence` and `unknown`, so both names are kept as they are. -/
theorem canonicalLabel_silence_cex :
    canonicalLabel "silence" = "silence" ∧
    canonicalLabel "unknown" = "unknown" ∧
    ("silence" : String) ≠ "unknown" := by
  decide

/-- C2 (amended): the Label Encoder maps a raw folder name by this priority
order: the designated background-noise folder name becomes `silence`; else a
name in `legal_labels` — *including* `silence` and `unknown` themselves —
stays as it is; else the name becomes `unknown`.  So a real folder literally
named `silence` or `unknown` keeps that name as its canonical class. -/
theorem canonicalLabel_cases (label : String) :
    (label = "_background_noise_" → canonicalLabel label = "silence") ∧
    (label ≠ "_background_noise_" → label ∈ legal_labels →
      canonicalLabel label = label) ∧
    (label ≠ "_background_noise_" → label ∉ legal_labels →
      canonicalLabel label = "unknown") := by
  refine ⟨fun h1 => ?_, fun h1 h2 => ?_, fun h1 h2 => ?_⟩
  · simp [canonicalLabel, h1]
  · simp [canonicalLabel, h1, h2]
  · simp [canonicalLabel, h1, h2]

/-- Witness for C2 (amended) at the background-noise folder, a folder
literally named `silence`, and an out-of-vocabulary folder. -/
theorem canonicalLabel_cases_witness :
    canonicalLabel "_background_noise_" = "silence" ∧
    canonicalLabel "silence" = "silence" ∧
    canonicalLabel "banana" = "unknown" :=
  ⟨(canonicalLabel_cases "_background_noise_").1 rfl,
   (canonicalLabel_cases "silence").2.1 (by decide) (by decide),
   (canonicalLabel_cases "banana").2.2 (by decide) (by decide)⟩

/-! ## Claim C8 -/

/-- C8: every label vector produced at indexing time is one-hot — exactly
one entry equals 1 (its multiplicity in the row is 1), every entry is 0 or
1, and the entries sum to 1. -/
theorem transform_labels_one_hot (labels : List String) (i : Nat)
    (h : i < (transform_labels labels).length) :
    ((transform_labels labels).get ⟨i, h⟩).count 1 = 1 ∧
    (∀ x ∈ (transform_labels labels).get ⟨i, h⟩, x = 0 ∨ x = 1) ∧
    ((transform_labels labels).get ⟨i, h⟩).sum = 1 := by
  have hl : i < labels.length := by rwa [transform_labels_length] at h
  have hv : (transform_labels labels).get ⟨i, h⟩ =
      oneHot (dummyColumns (labels.map canonicalLabel))
        (canonicalLabel (labels.get ⟨i, hl⟩)) := by
    have h2 := transform_labels_get? labels i hl
    rw [List.get?_eq_get h] at h2
    exact Option.some.inj h2
  have hmem : canonicalLabel (labels.get ⟨i, hl⟩) ∈
      dummyColumns (labels.map canonicalLabel) := by
    rw [mem_dummyColumns]
    exact List.mem_map_of_mem canonicalLabel (labels.get_mem i hl)
  have hcount : (dummyColumns (labels.map canonicalLabel)).count
      (canonicalLabel (labels.get ⟨i, hl⟩)) = 1 :=
    List.count_eq_one_of_mem (nodup_dummyColumns _) hmem
  rw [hv]
  exact ⟨by rw [count_one_oneHot, hcount], mem_oneHot _ _,
    by rw [sum_oneHot, hcount]⟩

/-- Witness for C8 at the corpus `yes, banana`, row 0. -/
theorem transform_labels_one_hot_witness :
    ((transform_labels ["yes", "banana"]).get ⟨0, by decide⟩).count 1 = 1 ∧
    (∀ x ∈ (transform_labels ["yes", "banana"]).get ⟨0, by decide⟩,
      x = 0 ∨ x = 1) ∧
    ((transform_labels ["yes", "banana"]).get ⟨0, by decide⟩).sum = 1 :=
  transform_labels_one_hot ["yes", "banana"] 0 (by decide)

/-! ## Helper lemmas: RandomChop -/

theorem pad_audio_length (T : Nat) (samples : List Int) :
    (pad_audio T samples).length = max T samples.length := by
  unfold pad_audio
  split
  · omega
  · simp only [List.length_append, List.length_replicate]
    omega

theorem pad_audio_of_ge (T : Nat) (samples : List Int)
    (h : samples.length ≥ T) : pad_audio T samples = samples := by
  unfold pad_audio
  rw [if_pos h]

theorem pad_audio_of_lt (T : Nat) (samples : List Int)
    (h : samples.length < T) :
    pad_audio T samples = List.replicate (T - samples.length) 0 ++ samples := by
  unfold pad_audio
  rw [if_neg (by omega)]

theorem randomChop_length (T start : Nat) (samples : List Int)
    (hstart : samples.length > T → start < samples.length - T) :
    (randomChop T start samples).length = T := by
  have hp := pad_audio_length T samples
  simp only [randomChop, chop_audio]
  split
  · rename_i hgt
    rw [List.length_take, List.length_drop, hp]
    rw [hp] at hgt
    omega
  · rename_i hng
    rw [hp] at hng ⊢
    omega

theorem randomChop_of_lt (T start : Nat) (samples : List Int)
    (hlt : samples.length < T) :
    randomChop T start samples =
      List.replicate (T - samples.length) 0 ++ samples := by
  simp only [randomChop, pad_audio_of_lt T samples hlt]
  rw [if_neg]
  simp only [List.length_append, List.length_replicate]
  omega

/-! ## Claim C3 -/

/-- C3: Stage A output length is always exactly the target `T`; for input
length `L ≥ T` the output is a contiguous slice of the input whose start is
the `randint` draw (which lies in `[0, L - T)`) when `L > T` and offset 0
when `L = T`; for `L < T` the last `L` output samples are exactly the input
and the first `T - L` are zero. -/
theorem randomChop_spec (T start : Nat) (samples : List Int)
    (hstart : samples.length > T → start < samples.length - T) :
    (randomChop T start samples).length = T ∧
    (samples.length ≥ T → ∃ s, s + T ≤ samples.length ∧
      (samples.length > T → s = start ∧ s < samples.length - T) ∧
      (samples.length = T → s = 0) ∧
      randomChop T start samples = (samples.drop s).take T) ∧
    (samples.length < T →
      (randomChop T start samples).drop (T - samples.length) = samples ∧
      (randomChop T start samples).take (T - samples.length) =
        List.replicate (T - samples.length) 0) := by
  refine ⟨randomChop_length T start samples hstart, fun hge => ?_, fun hlt => ?_⟩
  · by_cases hgt : samples.length > T
    · refine ⟨start, by have := hstart hgt; omega,
        fun _ => ⟨rfl, hstart hgt⟩, fun heq => by omega, ?_⟩
      simp only [randomChop, pad_audio_of_ge T samples hge]
      rw [if_pos hgt]
      rfl
    · refine ⟨0, by omega, fun h => absurd h hgt, fun _ => rfl, ?_⟩
      simp only [randomChop, pad_audio_of_ge T samples hge]
      rw [if_neg hgt, List.drop_zero, List.take_of_length_le (by omega)]
  · rw [randomChop_of_lt T start samples hlt]
    exact ⟨List.drop_left' (List.length_replicate _ _),
      List.take_left' (List.length_replicate _ _)⟩

/-- Witness for C3 at target 3, input `[5, 6, 7, 8, 9]` (length 5 > 3) and
`randint` draw 1. -/
theorem randomChop_spec_witness :
    (randomChop 3 1 [5, 6, 7, 8, 9]).length = 3 ∧
    (([5, 6, 7, 8, 9] : List Int).length ≥ 3 → ∃ s,
      s + 3 ≤ ([5, 6, 7, 8, 9] : List Int).length ∧
      (([5, 6, 7, 8, 9] : List Int).length > 3 →
        s = 1 ∧ s < ([5, 6, 7, 8, 9] : List Int).length - 3) ∧
      (([5, 6, 7, 8, 9] : List Int).length = 3 → s = 0) ∧
      randomChop 3 1 [5, 6, 7, 8, 9] =
        (([5, 6, 7, 8, 9] : List Int).drop s).take 3) ∧
    (([5, 6, 7, 8, 9] : List Int).length < 3 →
      (randomChop 3 1 [5, 6, 7, 8, 9]).drop
          (3 - ([5, 6, 7, 8, 9] : List Int).length) = [5, 6, 7, 8, 9] ∧
      (randomChop 3 1 [5, 6, 7, 8, 9]).take
          (3 - ([5, 6, 7, 8, 9] : List Int).length) =
        List.replicate (3 - ([5, 6, 7, 8, 9] : List Int).length) 0) :=
  randomChop_spec 3 1 [5, 6, 7, 8, 9] (by decide)

/-! ## Claim C4 -/

/-- C4 (counterexample): the length Stage B passes to `signal.resample` is
`int(target_rate / original_rate * input_length)` — truncation, not the
`round` of the spec.  At original rate 16000 Hz and input length 3 the code
computes `int(1.5) = 1` (the float arithmetic is exact here) while the spec
formula gives `round(1.5) = 2`. -/
theorem resampleLen_truncates_cex :
    resampleLen 8000 16000 3 = 1 ∧
    resampleLenSpec 8000 16000 3 = 2 ∧
    (resampleLen 8000 16000 3 : Int) ≠ resampleLenSpec 8000 16000 3 := by
  have h1 : resampleLen 8000 16000 3 = 1 := by decide
  have h2 : resampleLenSpec 8000 16000 3 = 2 := by
    simp [resampleLenSpec]
    norm_num [round_eq]
  exact ⟨h1, h2, by rw [h1, h2]; decide⟩

/-- C4 (amended): for every original rate `r > 0` and input length `N`, the
resampled output length is the *truncation* `⌊target_rate · N / r⌋` of the
spec's ratio (not its rounding), characterized by
`len · r ≤ target · N < (len + 1) · r`; in particular 16000 samples at
16000 Hz resampled to 8000 Hz give exactly 8000. -/
theorem resampleLen_floor_charac (target orig n : Nat) (h : 0 < orig) :
    resampleLen target orig n * orig ≤ target * n ∧
    target * n < (resampleLen target orig n + 1) * orig := by
  unfold resampleLen
  exact ⟨Nat.div_mul_le_self _ _,
    (Nat.div_lt_iff_lt_mul h).mp (Nat.lt_succ_self _)⟩

/-- Witness for C4 (amended) at the scenario-2 numbers: 16000 samples at
16000 Hz, target rate 8000 Hz. -/
theorem resampleLen_floor_charac_witness :
    resampleLen 8000 16000 16000 * 16000 ≤ 8000 * 16000 ∧
    8000 * 16000 < (resampleLen 8000 16000 16000 + 1) * 16000 :=
  resampleLen_floor_charac 8000 16000 16000 (by decide)

/-! ## Claim C5 -/

/-- C5 (counterexample): the spectrogram shape is *not* independent of the
original sample rate: the same raw audio read at 16000 Hz gives 99 time
bins, at 8000 Hz it gives 199 time bins, because the resampled length
`int(8000 / original_rate * 16000)` varies with the original rate. -/
theorem pipelineShape_rate_dependent_cex :
    pipelineShape 16000 0 (List.replicate 12000 1) = (99, 81) ∧
    pipelineShape 8000 0 (List.replicate 12000 1) = (199, 81) ∧
    pipelineShape 16000 0 (List.replicate 12000 1) ≠
      pipelineShape 8000 0 (List.replicate 12000 1) := by
  have hlen : (randomChop 16000 0 (List.replicate 12000 (1 : Int))).length = 16000 :=
    randomChop_length 16000 0 _ (by rw [List.length_replicate]; omega)
  have h1 : pipelineShape 16000 0 (List.replicate 12000 1) = (99, 81) := by
    unfold pipelineShape
    rw [hlen]
    decide
  have h2 : pipelineShape 8000 0 (List.replicate 12000 1) = (199, 81) := by
    unfold pipelineShape
    rw [hlen]
    decide
  exact ⟨h1, h2, by rw [h1, h2]; decide⟩

/-- C5 (amended): for the fixed Stage A target (16000 samples) and fixed
Stage B parameters (8000 Hz target rate, 20 ms / 10 ms window/hop), the
spectrogram shape is identical for every input duration, content and crop
draw — it is a function of the original sample rate alone — but it *does*
depend on the original sample rate, contrary to the claim (see the
counterexample). -/
theorem pipelineShape_duration_invariant (origRate start : Nat)
    (samples : List Int)
    (hstart : samples.length > 16000 → start < samples.length - 16000) :
    pipelineShape origRate start samples =
      specShape 8000 (resampleLen 8000 origRate 16000) := by
  unfold pipelineShape
  rw [randomChop_length 16000 start samples hstart]

/-- Witness for C5 (amended) at a 3-sample input read at 16000 Hz. -/
theorem pipelineShape_duration_invariant_witness :
    pipelineShape 16000 2 [1, 2, 3] =
      specShape 8000 (resampleLen 8000 16000 16000) :=
  pipelineShape_duration_invariant 16000 2 [1, 2, 3] (by decide)

/-! ## Helper lemmas: dataset construction and indexing -/

theorem soundDatasetInit_of_filter_nil (subset : Option (List String))
    (files : List (String × String))
    (hf : files.filter (fun p => is_needed subset p.2) = []) :
    soundDatasetInit subset files = none := by
  unfold soundDatasetInit list_of_wavs unzip2
  rw [hf]

theorem soundDatasetInit_of_filter_cons (subset : Option (List String))
    (files : List (String × String)) (a : String × String)
    (l : List (String × String))
    (hf : files.filter (fun p => is_needed subset p.2) = a :: l) :
    soundDatasetInit subset files =
      some ((a :: l).map Prod.fst, (a :: l).map Prod.snd,
        transform_labels ((a :: l).map Prod.fst)) := by
  unfold soundDatasetInit list_of_wavs unzip2
  rw [hf]

theorem soundDatasetLen_eq (subset : Option (List String))
    (files : List (String × String))
    (d : List String × List String × List (List Nat))
    (hd : soundDatasetInit subset files = some d) :
    soundDatasetLen d = (files.filter (fun p => is_needed subset p.2)).length := by
  cases hf : files.filter (fun p => is_needed subset p.2) with
  | nil =>
    rw [soundDatasetInit_of_filter_nil subset files hf] at hd
    cases hd
  | cons a l =>
    rw [soundDatasetInit_of_filter_cons subset files a l hf] at hd
    have := Option.some.inj hd
    subst this
    simp [soundDatasetLen]

theorem pyGet_eq_none_of_oob {α : Type} (l : List α) (idx : Int)
    (h : idx ≥ (l.length : Int) ∨ idx < -(l.length : Int)) :
    pyGet l idx = none := by
  unfold pyGet
  rcases h with h | h
  · rw [if_pos (by omega)]
    exact List.get?_eq_none.mpr (by omega)
  · rw [if_neg (by omega), if_neg (by omega)]

theorem pyGet_nonneg {α : Type} (l : List α) (idx : Int) (h0 : 0 ≤ idx) :
    pyGet l idx = l.get? idx.toNat := by
  unfold pyGet
  rw [if_pos (by omega)]

theorem pyGet_neg {α : Type} (l : List α) (idx : Int) (hneg : idx < 0)
    (hge : -(l.length : Int) ≤ idx) :
    pyGet l idx = l.get? ((idx + l.length).toNat) := by
  unfold pyGet
  rw [if_neg (by omega), if_pos (by omega)]
  congr 1
  omega

/-! ## Claim C6 -/

/-- C6 (counterexample): construction over an empty directory, or with a
subset filter matching no file, does not succeed with a zero-length corpus:
the two-target unpacking in `unzip2` raises `ValueError` on the empty
listing, so `SoundDataset.__init__` fails. -/
theorem soundDatasetInit_empty_cex :
    soundDatasetInit none ([] : List (String × String)) = none ∧
    soundDatasetInit (some ["c.wav"]) [("yes", "a.wav"), ("no", "b.wav")] = none := by
  decide

/-- C6 (amended): construction over a directory listing fails (raises, in
`unzip2`) exactly when no file survives the subset filter — an empty
directory or a filter matching nothing never yields a zero-length view;
when construction succeeds, `length()` equals the number of files retained
by the filter. -/
theorem soundDatasetInit_none_iff_empty (subset : Option (List String))
    (files : List (String × String)) :
    (soundDatasetInit subset files = none ↔
      files.filter (fun p => is_needed subset p.2) = []) ∧
    (∀ d, soundDatasetInit subset files = some d →
      soundDatasetLen d = (files.filter (fun p => is_needed subset p.2)).length) := by
  constructor
  · cases hf : files.filter (fun p => is_needed subset p.2) with
    | nil => simp [soundDatasetInit_of_filter_nil subset files hf]
    | cons a l => simp [soundDatasetInit_of_filter_cons subset files a l hf]
  · intro d hd
    exact soundDatasetLen_eq subset files d hd

/-- Witness for C6 (amended): a filter matching nothing makes construction
fail, and a successful construction has the filtered length. -/
theorem soundDatasetInit_none_iff_empty_witness :
    soundDatasetInit (some ["b.wav"]) [("yes", "a.wav")] = none ∧
    soundDatasetLen (["yes"], ["a.wav"], [[1]]) =
      ([("yes", "a.wav")].filter (fun p => is_needed none p.2)).length :=
  ⟨(soundDatasetInit_none_iff_empty (some ["b.wav"]) [("yes", "a.wav")]).1.mpr
      (by decide),
   (soundDatasetInit_none_iff_empty none [("yes", "a.wav")]).2
      (["yes"], ["a.wav"], [[1]]) (by decide)⟩

/-! ## Claim C7 -/

/-- C7 (counterexample): on the two-file view produced by construction,
`get(-1)` does not fail with a bounds error — the Python list subscriptions
resolve `-1` to the last entry. -/
theorem getitem_negative_index_cex :
    soundDatasetInit none [("yes", "a.wav"), ("no", "b.wav")] =
      some (["yes", "no"], ["a.wav", "b.wav"], [[0, 1], [1, 0]]) ∧
    soundDatasetGetitem (["yes", "no"], ["a.wav", "b.wav"], [[0, 1], [1, 0]]) (-1) =
      some ("no", "b.wav", [1, 0]) := by
  decide

/-- C7 (amended): `get(index)` fails with `IndexError` for
`index ≥ length()` and for `index < -length()`, and succeeds for
`0 ≤ index < length()`; but a negative index in `[-length(), -1]` is not
rejected — it is resolved Python-style to the entry at
`index + length()`. -/
theorem getitem_bounds (labels sounds : List String)
    (tlabels : List (List Nat))
    (h1 : sounds.length = labels.length) (h2 : tlabels.length = labels.length)
    (idx : Int) :
    ((idx ≥ (soundDatasetLen (labels, sounds, tlabels) : Int) ∨
        idx < -(soundDatasetLen (labels, sounds, tlabels) : Int)) →
      soundDatasetGetitem (labels, sounds, tlabels) idx = none) ∧
    (idx < 0 → -(soundDatasetLen (labels, sounds, tlabels) : Int) ≤ idx →
      soundDatasetGetitem (labels, sounds, tlabels) idx =
        soundDatasetGetitem (labels, sounds, tlabels)
          (idx + (soundDatasetLen (labels, sounds, tlabels) : Int))) ∧
    (0 ≤ idx → idx < (soundDatasetLen (labels, sounds, tlabels) : Int) →
      (soundDatasetGetitem (labels, sounds, tlabels) idx).isSome = true) := by
  have hlen : soundDatasetLen (labels, sounds, tlabels) = labels.length := rfl
  refine ⟨fun hoob => ?_, fun hneg hge => ?_, fun hpos hlt => ?_⟩
  · have e1 : pyGet labels idx = none :=
      pyGet_eq_none_of_oob labels idx (by rw [hlen] at hoob; exact hoob)
    simp [soundDatasetGetitem, e1]
  · rw [hlen] at hge
    have e1 : pyGet labels idx = labels.get? ((idx + labels.length).toNat) :=
      pyGet_neg labels idx hneg hge
    have e2 : pyGet sounds idx = sounds.get? ((idx + labels.length).toNat) := by
      rw [pyGet_neg sounds idx hneg (by rw [h1]; exact hge), h1]
    have e3 : pyGet tlabels idx = tlabels.get? ((idx + labels.length).toNat) := by
      rw [pyGet_neg tlabels idx hneg (by rw [h2]; exact hge), h2]
    have f1 : pyGet labels (idx + (labels.length : Int)) =
        labels.get? ((idx + labels.length).toNat) :=
      pyGet_nonneg labels _ (by omega)
    have f2 : pyGet sounds (idx + (labels.length : Int)) =
        sounds.get? ((idx + labels.length).toNat) :=
      pyGet_nonneg sounds _ (by omega)
    have f3 : pyGet tlabels (idx + (labels.length : Int)) =
        tlabels.get? ((idx + labels.length).toNat) :=
      pyGet_nonneg tlabels _ (by omega)
    rw [hlen]
    simp only [soundDatasetGetitem, e1, e2, e3, f1, f2, f3]
  · rw [hlen] at hlt
    have g1 : ∃ a, labels.get? idx.toNat = some a := by
      rw [List.get?_eq_get (by omega)]
      exact ⟨_, rfl⟩
    have g2 : ∃ a, sounds.get? idx.toNat = some a := by
      rw [List.get?_eq_get (by omega)]
      exact ⟨_, rfl⟩
    have g3 : ∃ a, tlabels.get? idx.toNat = some a := by
      rw [List.get?_eq_get (by omega)]
      exact ⟨_, rfl⟩
    obtain ⟨a, ha⟩ := g1
    obtain ⟨b, hb⟩ := g2
    obtain ⟨c, hc⟩ := g3
    rw [List.get?_eq_getElem?] at ha hb hc
    simp [soundDatasetGetitem, pyGet_nonneg labels idx hpos,
      pyGet_nonneg sounds idx hpos, pyGet_nonneg tlabels idx hpos, ha, hb, hc]

/-- Witness for C7 (amended): out-of-range rejection, negative-index
wrapping, and in-range success on a two-entry view. -/
theorem getitem_bounds_witness :
    soundDatasetGetitem (["yes", "no"], ["a.wav", "b.wav"], [[0, 1], [1, 0]]) 2 = none ∧
    soundDatasetGetitem (["yes", "no"], ["a.wav", "b.wav"], [[0, 1], [1, 0]]) (-1) =
      soundDatasetGetitem (["yes", "no"], ["a.wav", "b.wav"], [[0, 1], [1, 0]])
        (-1 + (soundDatasetLen (["yes", "no"], ["a.wav", "b.wav"],
          [[0, 1], [1, 0]]) : Int)) ∧
    (soundDatasetGetitem (["yes", "no"], ["a.wav", "b.wav"], [[0, 1], [1, 0]]) 0).isSome
      = true :=
  ⟨(getitem_bounds ["yes", "no"] ["a.wav", "b.wav"] [[0, 1], [1, 0]]
      rfl rfl 2).1 (by decide),
   (getitem_bounds ["yes", "no"] ["a.wav", "b.wav"] [[0, 1], [1, 0]]
      rfl rfl (-1)).2.1 (by decide) (by decide),
   (getitem_bounds ["yes", "no"] ["a.wav", "b.wav"] [[0, 1], [1, 0]]
      rfl rfl 0).2.2 (by decide) (by decide)⟩

/-! ## Claim C9 -/

theorem length_filter_mono {α : Type} (l : List α) (p q : α → Bool)
    (h : ∀ a, p a = true → q a = true) :
    (l.filter p).length ≤ (l.filter q).length := by
  induction l with
  | nil => simp
  | cons a as ih =>
    simp only [List.filter_cons]
    by_cases hp : p a = true
    · rw [if_pos hp, if_pos (h a hp)]
      exact Nat.succ_le_succ ih
    · rw [if_neg hp]
      by_cases hq : q a = true
      · rw [if_pos hq]
        exact Nat.le_succ_of_le ih
      · rw [if_neg hq]
        exact ih

/-- C9: for a fixed directory listing and subset filters `F1 ⊆ F2`, the
Dataset View built with `F1` (when both constructions succeed) has length
at most that of the view built with `F2`. -/
theorem dataset_len_mono (files : List (String × String)) (F1 F2 : List String)
    (hsub : ∀ x ∈ F1, x ∈ F2)
    (d1 d2 : List String × List String × List (List Nat))
    (hd1 : soundDatasetInit (some F1) files = some d1)
    (hd2 : soundDatasetInit (some F2) files = some d2) :
    soundDatasetLen d1 ≤ soundDatasetLen d2 := by
  rw [soundDatasetLen_eq (some F1) files d1 hd1,
    soundDatasetLen_eq (some F2) files d2 hd2]
  apply length_filter_mono
  intro a ha
  simp only [is_needed, decide_eq_true_eq] at ha ⊢
  exact hsub a.2 ha

/-- Witness for C9: `F1 = [a.wav] ⊆ F2 = [a.wav, b.wav]` over a two-file
directory gives views of lengths 1 ≤ 2. -/
theorem dataset_len_mono_witness :
    soundDatasetLen (["yes"], ["a.wav"], [[1]]) ≤
      soundDatasetLen (["yes", "yes"], ["a.wav", "b.wav"], [[1], [1]]) :=
  dataset_len_mono [("yes", "a.wav"), ("yes", "b.wav")] ["a.wav"]
    ["a.wav", "b.wav"] (by decide) (["yes"], ["a.wav"], [[1]])
    (["yes", "yes"], ["a.wav", "b.wav"], [[1], [1]]) (by decide) (by decide)

/-! ## Helper lemmas: subset-file parsing -/

theorem splitChar_cons (c x : Char) (xs : List Char) :
    splitChar c (x :: xs) =
      if x = c then [] :: splitChar c xs
      else match splitChar c xs with
        | [] => [[x]]
        | y :: ys => (x :: y) :: ys := rfl

theorem splitChar_ne_nil (c : Char) : ∀ l : List Char, splitChar c l ≠ []
  | [] => by simp [splitChar]
  | x :: xs => by
    rw [splitChar_cons]
    by_cases h : x = c
    · rw [if_pos h]
      simp
    · rw [if_neg h]
      cases hs : splitChar c xs with
      | nil => exact absurd hs (splitChar_ne_nil c xs)
      | cons y ys => simp

theorem splitChar_append_sep (c : Char) : ∀ l : List Char,
    splitChar c (l ++ [c]) = splitChar c l ++ [[]]
  | [] => by simp [splitChar]
  | x :: xs => by
    have ih := splitChar_append_sep c xs
    rw [List.cons_append, splitChar_cons, splitChar_cons]
    by_cases h : x = c
    · rw [if_pos h, if_pos h, ih, List.cons_append]
    · rw [if_neg h, if_neg h, ih]
      cases hs : splitChar c xs with
      | nil => exact absurd hs (splitChar_ne_nil c xs)
      | cons y ys => simp

theorem load_subset_none_of_short_line (text line : List Char)
    (hline : line ∈ splitChar (Char.ofNat 10) text)
    (hlen : (splitChar (Char.ofNat 47) line).length ≤ 1) :
    load_subset text = none := by
  have hnone : (splitChar (Char.ofNat 47) line).get? 1 = none :=
    List.get?_eq_none.mpr hlen
  have hmem : (none : Option (List Char)) ∈
      (splitChar (Char.ofNat 10) text).map
        (fun line => (splitChar (Char.ofNat 47) line).get? 1) := by
    rw [← hnone]
    exact List.mem_map_of_mem _ hline
  simp only [load_subset]
  split
  · rename_i hall
    rw [List.all_eq_true] at hall
    have h2 := hall none hmem
    simp at h2
  · rfl

/-! ## Claim C10 -/

/-- C10: `_load_subset` splits the file text on newlines and subscripts each
slash-split line at index 1, so any text with a line containing no slash —
in particular any text ending in a trailing newline, whose final line is
empty — makes loading fail with `IndexError` instead of returning a filter
set. -/
theorem load_subset_fails (text : List Char) :
    (∀ line ∈ splitChar (Char.ofNat 10) text,
      (splitChar (Char.ofNat 47) line).length ≤ 1 → load_subset text = none) ∧
    load_subset (text ++ [Char.ofNat 10]) = none := by
  refine ⟨fun line hline hlen =>
    load_subset_none_of_short_line text line hline hlen, ?_⟩
  refine load_subset_none_of_short_line (text ++ [Char.ofNat 10]) [] ?_ ?_
  · rw [splitChar_append_sep]
    exact List.mem_append_right _ (List.mem_singleton_self _)
  · decide

/-- Witness for C10: a one-line file without a slash fails, and a well
formed subset file with a trailing newline fails on its empty final line. -/
theorem load_subset_fails_witness :
    load_subset ("ab".data) = none ∧
    load_subset ("yes/a.wav".data ++ [Char.ofNat 10]) = none :=
  ⟨(load_subset_fails ("ab".data)).1 ("ab".data) (by decide) (by decide),
   (load_subset_fails ("yes/a.wav".data)).2⟩

end Speech
